import Mathlib

/-!
Verification of the brokaw NNTP client library.

The definitions below are a shallow embedding of the Rust sources:
`src/client.rs`, `src/types/response/group.rs`, `src/raw/compression.rs`.
Asynchronous I/O is modelled by passing the result of each read explicitly
(an `Except Error RawResponse` per command, or an oracle from connect steps
to such results).  Machine integers (u32 status fields) are `Nat` with the
range check of the Rust parse made explicit.  Definitions whose Rust source
is not part of the crate snapshot (the error enum, the status-code table,
the small conversion helpers) are modelled from the written specification
and carry a doc comment saying so.
-/

deriving instance DecidableEq for Except

namespace Brokaw

/-- Semantic meaning of a known status code, as enumerated by the spec
(group-selected, article/head/body success variants, capabilities-list,
authentication codes, the no-article family, posting and availability
codes, connection-closing). -/
inductive Kind where
  | ArticleExists
  | Article
  | Body
  | Capabilities
  | ConnectionClosing
  | GroupSelected
  | Head
  | AuthenticationAccepted
  | PasswordRequired
  | InvalidCurrentArticleNumber
  | NoArticleWithMessageId
  | NoArticleWithNumber
  | NoSuchNewsgroup
  | PostingAllowed
  | PostingNotPermitted
  | TemporarilyUnavailable
  | PermanentlyUnavailable
deriving DecidableEq

/-- A response code is either a known kind or an unknown numeric code. -/
inductive ResponseCode where
  | known (k : Kind)
  | unknown (code : Nat)
deriving DecidableEq

/-- Modelled from the spec: the total, pure lookup table mapping numeric
status codes to kinds (the code table source file is not in the snapshot).
Numeric values are the protocol-standard codes the spec references:
211 group selected, 220/221/222 article/head/body follows, 223 article
exists, 101 capabilities follow, 281 authentication accepted, 381 password
required (the intermediate AUTHINFO code), 411 no such newsgroup,
420 invalid current article number, 423 no article with that number,
430 no article with that message-id, 205 connection closing, 200/201
posting allowed/not permitted, 400/502 temporarily/permanently
unavailable.  Every other code is unknown. -/
def ResponseCode.fromCode (code : Nat) : ResponseCode :=
  match code with
  | 101 => .known .Capabilities
  | 200 => .known .PostingAllowed
  | 201 => .known .PostingNotPermitted
  | 205 => .known .ConnectionClosing
  | 211 => .known .GroupSelected
  | 220 => .known .Article
  | 221 => .known .Head
  | 222 => .known .Body
  | 223 => .known .ArticleExists
  | 281 => .known .AuthenticationAccepted
  | 381 => .known .PasswordRequired
  | 400 => .known .TemporarilyUnavailable
  | 411 => .known .NoSuchNewsgroup
  | 420 => .known .InvalidCurrentArticleNumber
  | 423 => .known .NoArticleWithNumber
  | 430 => .known .NoArticleWithMessageId
  | 502 => .known .PermanentlyUnavailable
  | _ => .unknown code

/-- One complete protocol reply: the numeric status code, the first line
(kept as a string, standing for its lossy UTF-8 decoding), and the
de-stuffed body lines of a multi-line response. -/
structure RawResponse where
  code : Nat
  firstLine : String
  bodyLines : List String
deriving DecidableEq

/-- Modelled from the spec: the error taxonomy of the crate (the error
module source is not in the snapshot).  `Failure` is the server-reported
failure carrying the numeric code, an optional descriptive message and the
full raw response; `MissingField` and `ParseField` are the typed-conversion
errors naming the field; `Transport` stands for any I/O, timeout or framing
error threaded through with the question-mark operator. -/
inductive Error where
  | Failure (code : ResponseCode) (msg : Option String) (resp : RawResponse)
  | MissingField (field : String)
  | ParseField (field : String)
  | Transport (desc : String)
deriving DecidableEq

/-- Modelled from the spec: the `Error::failure` constructor, a classified
failure carrying the actual code and the offending response, no message. -/
def Error.failure (resp : RawResponse) : Error :=
  .Failure (ResponseCode.fromCode resp.code) none resp

/-- Modelled from the spec: `fail_unless(expected_kind)` returns the
response unchanged if its code matches the expected kind, else a classified
failure carrying the actual code and the response, with no extra message. -/
def RawResponse.failUnless (resp : RawResponse) (k : Kind) : Except Error RawResponse :=
  if ResponseCode.fromCode resp.code = .known k then .ok resp
  else .error (Error.failure resp)

/-- Modelled from the spec: the `err_if_not_kind` helper of the conversion
utilities (source not in the snapshot): a classified failure unless the
code matches the kind. -/
def errIfNotKind (resp : RawResponse) (k : Kind) : Except Error Unit :=
  if ResponseCode.fromCode resp.code = .known k then .ok ()
  else .error (Error.failure resp)

/-- Helper for `splitWs`: walk the characters, accumulating the current
token in reverse, emitting it whenever whitespace or the end is reached. -/
def splitWsAux : List Char → List Char → List String
  | [], [] => []
  | [], acc => [⟨acc.reverse⟩]
  | c :: cs, acc =>
    if c.isWhitespace then
      match acc with
      | [] => splitWsAux cs []
      | _ => ⟨acc.reverse⟩ :: splitWsAux cs []
    else splitWsAux cs (c :: acc)

/-- Whitespace splitting as done by the Rust split_whitespace iterator:
maximal runs of non-whitespace characters, empty pieces dropped. -/
def splitWs (s : String) : List String :=
  splitWsAux s.data []

/-- Helper for `strToNat?`: left-to-right accumulation of decimal digits,
failing on any non-digit character. -/
def natOfCharsAux : List Char → Nat → Option Nat
  | [], acc => some acc
  | c :: cs, acc =>
    if c.isDigit then natOfCharsAux cs (acc * 10 + (c.toNat - 48)) else none

/-- Decimal parse of a string: digits only, at least one digit.  This is
the numeric part of the Rust u32 string parse. -/
def strToNat? (s : String) : Option Nat :=
  match s.data with
  | [] => none
  | _ => natOfCharsAux s.data 0

/-- Modelled from the spec: `parse_field` for a numeric (u32) field — the
next whitespace token, absent yields a missing-field error naming the
field, non-numeric or out of u32 range yields a parse error naming it.
Returns the value and the remaining tokens. -/
def parseNatField (ts : List String) (field : String) : Except Error (Nat × List String) :=
  match ts with
  | [] => .error (.MissingField field)
  | t :: rest =>
    match strToNat? t with
    | some v => if v < 2 ^ 32 then .ok (v, rest) else .error (.ParseField field)
    | none => .error (.ParseField field)

/-- Modelled from the spec: `parse_field` for a string field — the next
whitespace token, absent yields a missing-field error naming the field
(parsing a string never fails). -/
def parseStrField (ts : List String) (field : String) : Except Error (String × List String) :=
  match ts with
  | [] => .error (.MissingField field)
  | t :: rest => .ok (t, rest)

/-- The GROUP response type of `src/types/response/group.rs`. -/
structure Group where
  number : Nat
  low : Nat
  high : Nat
  name : String
deriving DecidableEq

/-- The field-by-field parse of the first line of a GROUP response, after
whitespace splitting, exactly as `Group::try_from` walks its iterator:
pop the response code, then the required fields number, low, high, name. -/
def Group.tryFromTokens (ts : List String) : Except Error Group :=
  match ts with
  | [] => .error (.MissingField "response code")
  | _ :: ts =>
    match parseNatField ts "number" with
    | .error e => .error e
    | .ok (number, ts) =>
      match parseNatField ts "low" with
      | .error e => .error e
      | .ok (low, ts) =>
        match parseNatField ts "high" with
        | .error e => .error e
        | .ok (high, ts) =>
          match parseStrField ts "name" with
          | .error e => .error e
          | .ok (name, _) => .ok ⟨number, low, high, name⟩

/-- `Group::try_from(&RawResponse)`: require the group-selected kind, then
parse the whitespace-separated fields of the lossy first line. -/
def Group.tryFrom (resp : RawResponse) : Except Error Group :=
  match errIfNotKind resp .GroupSelected with
  | .error e => .error e
  | .ok _ => Group.tryFromTokens (splitWs resp.firstLine)

/-- The capability set advertised by the server. -/
structure Capabilities where
  tokens : List String
deriving DecidableEq

/-- Modelled from the spec: the Capabilities conversion (source not in the
snapshot) — require the capabilities kind, then collect the whitespace
separated tokens of every body line. -/
def Capabilities.tryFrom (resp : RawResponse) : Except Error Capabilities :=
  match errIfNotKind resp .Capabilities with
  | .error e => .error e
  | .ok _ => .ok ⟨(resp.bodyLines.map splitWs).flatten⟩

/-- The STAT response value: article number and message-id. -/
structure Stat where
  number : Nat
  messageId : String
deriving DecidableEq

/-- Modelled from the spec: the Stat conversion (source not in the
snapshot) — require the article-exists kind, then parse the article number
and message-id from the first line. -/
def Stat.tryFrom (resp : RawResponse) : Except Error Stat :=
  match errIfNotKind resp .ArticleExists with
  | .error e => .error e
  | .ok _ =>
    match splitWs resp.firstLine with
    | [] => .error (.MissingField "response code")
    | _ :: ts =>
      match parseNatField ts "number" with
      | .error e => .error e
      | .ok (number, ts) =>
        match parseStrField ts "message-id" with
        | .error e => .error e
        | .ok (messageId, _) => .ok ⟨number, messageId⟩

/-- The BODY response value: the raw body lines. -/
structure Body where
  payload : List String
deriving DecidableEq

/-- Modelled from the spec: the Body conversion (source not in the
snapshot) — requires the code matching the specific success kind for the
BODY command, then copies out the body lines. -/
def Body.tryFrom (resp : RawResponse) : Except Error Body :=
  match errIfNotKind resp .Body with
  | .error e => .error e
  | .ok _ => .ok ⟨resp.bodyLines⟩

/-- The byte sequence of an ASCII string, for the byte-level suffix test of
the compression sniffer. -/
def strBytes (s : String) : List Nat :=
  s.data.map Char.toNat

/-- The compression schemes of `src/raw/compression.rs`. -/
inductive Compression where
  | XFeature
deriving DecidableEq

/-- `Compression::use_decoder`: the first line signals compression exactly
when it ends with the literal bytes of the marker token and terminator. -/
def Compression.useDecoder (c : Compression) (firstLine : List Nat) : Bool :=
  match c with
  | .XFeature => (strBytes "[COMPRESS=GZIP]\r\n").isSuffixOf firstLine

/-- The client configuration fields that govern the connect handshake:
optional credentials and optional initial group.  Connection-level
configuration (timeouts, TLS) does not influence the control flow
modelled here. -/
structure ClientConfig where
  authinfo : Option (String × String)
  group : Option String
deriving DecidableEq

/-- The session state of `NntpClient`: its configuration and the cached
capabilities and current group.  The connection handle itself carries no
session data and is modelled by the explicit response arguments. -/
structure NntpClient where
  config : ClientConfig
  capabilities : Capabilities
  group : Option Group
deriving DecidableEq

/-- `NntpClient::command`: the escape hatch — forward the connection
result unvalidated and leave the session state alone. -/
def NntpClient.command (c : NntpClient) (conn : Except Error RawResponse) :
    Except Error RawResponse × NntpClient :=
  (conn, c)

/-- `NntpClient::select_group`: dispatch on the response code; on group
selected parse a Group, cache and return it; on no-such-newsgroup a
classified failure with the response; otherwise a failure carrying the
lossy first line as message plus the response. -/
def NntpClient.selectGroup (c : NntpClient) (conn : Except Error RawResponse) :
    Except Error Group × NntpClient :=
  match conn with
  | .error e => (.error e, c)
  | .ok resp =>
    match ResponseCode.fromCode resp.code with
    | .known .GroupSelected =>
      match Group.tryFrom resp with
      | .error e => (.error e, c)
      | .ok group => (.ok group, { c with group := some group })
    | .known .NoSuchNewsgroup => (.error (Error.failure resp), c)
    | code => (.error (.Failure code (some resp.firstLine) resp), c)

/-- `NntpClient::update_capabilities`: fail unless the capabilities kind,
convert, then replace the cached capabilities wholesale. -/
def NntpClient.updateCapabilities (c : NntpClient) (conn : Except Error RawResponse) :
    Except Error Capabilities × NntpClient :=
  match conn with
  | .error e => (.error e, c)
  | .ok resp =>
    match resp.failUnless .Capabilities with
    | .error e => (.error e, c)
    | .ok resp =>
      match Capabilities.tryFrom resp with
      | .error e => (.error e, c)
      | .ok capabilities => (.ok capabilities, { c with capabilities := capabilities })

/-- `NntpClient::stat`: article-exists converts to `some`; the three
no-article codes are a successful `none`; anything else is a classified
failure with the response. -/
def NntpClient.stat (conn : Except Error RawResponse) : Except Error (Option Stat) :=
  match conn with
  | .error e => .error e
  | .ok resp =>
    match ResponseCode.fromCode resp.code with
    | .known .ArticleExists =>
      match Stat.tryFrom resp with
      | .error e => .error e
      | .ok s => .ok (some s)
    | .known .NoArticleWithMessageId => .ok none
    | .known .InvalidCurrentArticleNumber => .ok none
    | .known .NoArticleWithNumber => .ok none
    | _ => .error (Error.failure resp)

/-- `NntpClient::body` exactly as written in `src/client.rs` line 199:
the response is passed through `fail_unless(Kind::Head)` — the Head kind,
not the Body kind — before the Body conversion. -/
def NntpClient.body (conn : Except Error RawResponse) : Except Error Body :=
  match conn with
  | .error e => .error e
  | .ok resp =>
    match resp.failUnless .Head with
    | .error e => .error e
    | .ok resp => Body.tryFrom resp

/-- The reads performed during `ClientConfig::connect`: the greeting read,
the two AUTHINFO round trips, the capabilities fetch, and the initial
group selection. -/
inductive Step where
  | greeting
  | authUser
  | authPass
  | capabilities
  | groupSel
deriving DecidableEq

/-- The server side of a connect attempt: the response (or I/O failure)
the connection would deliver for each step. -/
def Oracle : Type := Step → Except Error RawResponse

/-- The free function `authenticate` of `src/client.rs`: send AUTHINFO
USER; unless the code equals the code 381 maps to, fail with the message
"AUTHINFO USER failed" without sending PASS; then send AUTHINFO PASS and
require authentication-accepted, else fail with "AUTHINFO PASS failed".
Returns the result together with the steps actually performed. -/
def authenticate (oracle : Oracle) : Except Error Unit × List Step :=
  match oracle .authUser with
  | .error e => (.error e, [.authUser])
  | .ok userResp =>
    if ResponseCode.fromCode userResp.code ≠ ResponseCode.fromCode 381 then
      (.error (.Failure (ResponseCode.fromCode userResp.code)
        (some "AUTHINFO USER failed") userResp), [.authUser])
    else
      match oracle .authPass with
      | .error e => (.error e, [.authUser, .authPass])
      | .ok passResp =>
        if ResponseCode.fromCode passResp.code ≠ .known .AuthenticationAccepted then
          (.error (.Failure (ResponseCode.fromCode passResp.code)
            (some "AUTHINFO PASS failed") passResp), [.authUser, .authPass])
        else (.ok (), [.authUser, .authPass])

/-- The free function `get_capabilities` of `src/client.rs`: a classified
failure unless the capabilities kind, else the conversion. -/
def getCapabilities (oracle : Oracle) : Except Error Capabilities :=
  match oracle .capabilities with
  | .error e => .error e
  | .ok resp =>
    if ResponseCode.fromCode resp.code ≠ .known .Capabilities then
      .error (Error.failure resp)
    else Capabilities.tryFrom resp

/-- The free function `select_group` of `src/client.rs` (the connect-time
variant, which does not touch client state). -/
def selectGroupConn (oracle : Oracle) : Except Error Group :=
  match oracle .groupSel with
  | .error e => .error e
  | .ok resp =>
    match ResponseCode.fromCode resp.code with
    | .known .GroupSelected => Group.tryFrom resp
    | .known .NoSuchNewsgroup => .error (Error.failure resp)
    | code => .error (.Failure code (some resp.firstLine) resp)

/-- The tail of `ClientConfig::connect` after authentication: the
unconditional capabilities fetch, then the optional initial group
selection, with the steps performed. -/
def connectTail (cfg : ClientConfig) (oracle : Oracle) :
    Except Error (Capabilities × Option Group) × List Step :=
  match getCapabilities oracle with
  | .error e => (.error e, [.capabilities])
  | .ok capabilities =>
    match cfg.group with
    | none => (.ok (capabilities, none), [.capabilities])
    | some _ =>
      match selectGroupConn oracle with
      | .error e => (.error e, [.capabilities, .groupSel])
      | .ok g => (.ok (capabilities, some g), [.capabilities, .groupSel])

/-- `ClientConfig::connect`: greeting read, optional authentication,
capabilities fetch, optional initial group selection, in that order,
each failure aborting immediately; on success the client is built from
the configuration and the fetched capabilities and group. -/
def connect (cfg : ClientConfig) (oracle : Oracle) :
    Except Error NntpClient × List Step :=
  match oracle .greeting with
  | .error e => (.error e, [.greeting])
  | .ok _ =>
    match (match cfg.authinfo with
           | some _ => authenticate oracle
           | none => (.ok (), [])) with
    | (.error e, tr) => (.error e, .greeting :: tr)
    | (.ok _, tr) =>
      match connectTail cfg oracle with
      | (.error e, tr2) => (.error e, .greeting :: (tr ++ tr2))
      | (.ok (capabilities, g), tr2) =>
        (.ok ⟨cfg, capabilities, g⟩, .greeting :: (tr ++ tr2))

/-- Specification side: the full ordered step list a configuration calls
for — greeting, then the AUTHINFO pair only if credentials are configured,
then the unconditional capabilities fetch, then group selection only if an
initial group is configured. -/
def stepsFor (cfg : ClientConfig) : List Step :=
  [.greeting]
    ++ (if cfg.authinfo.isSome then [.authUser, .authPass] else [])
    ++ [.capabilities]
    ++ (if cfg.group.isSome then [.groupSel] else [])

/-- Specification side: the pass/fail outcome of one connect step in
isolation, as the spec describes each step. -/
def stepOutcome (oracle : Oracle) : Step → Except Error Unit
  | .greeting =>
    match oracle .greeting with
    | .error e => .error e
    | .ok _ => .ok ()
  | .authUser =>
    match oracle .authUser with
    | .error e => .error e
    | .ok userResp =>
      if ResponseCode.fromCode userResp.code ≠ ResponseCode.fromCode 381 then
        .error (.Failure (ResponseCode.fromCode userResp.code)
          (some "AUTHINFO USER failed") userResp)
      else .ok ()
  | .authPass =>
    match oracle .authPass with
    | .error e => .error e
    | .ok passResp =>
      if ResponseCode.fromCode passResp.code ≠ .known .AuthenticationAccepted then
        .error (.Failure (ResponseCode.fromCode passResp.code)
          (some "AUTHINFO PASS failed") passResp)
      else .ok ()
  | .capabilities =>
    match getCapabilities oracle with
    | .error e => .error e
    | .ok _ => .ok ()
  | .groupSel =>
    match selectGroupConn oracle with
    | .error e => .error e
    | .ok _ => .ok ()

/-- Specification side: run a list of steps in order, aborting at the
first failing step with the error of that step; the second component is
the list of steps actually attempted. -/
def runSteps (oracle : Oracle) : List Step → Except Error Unit × List Step
  | [] => (.ok (), [])
  | s :: rest =>
    match stepOutcome oracle s with
    | .error e => (.error e, [s])
    | .ok _ =>
      match runSteps oracle rest with
      | (r, tr) => (r, s :: tr)

/-! Concrete responses and states used to exercise the definitions. -/

/-- The group-selection response of the spec example. -/
def respMoz : RawResponse :=
  ⟨211, "211 3000234 3000000 3002322 mozilla.dev.platform", []⟩

/-- A group-selection first line missing the name field. -/
def respNoName : RawResponse :=
  ⟨211, "211 3000234 3000000 3002322", []⟩

/-- A group-selection first line with tokens after the name field. -/
def respExtraTokens : RawResponse :=
  ⟨211, "211 3000234 3000000 3002322 mozilla.dev.platform extra tokens", []⟩

/-- A no-such-newsgroup response. -/
def respNoGroup : RawResponse :=
  ⟨411, "411 no such newsgroup", []⟩

/-- A no-article-with-that-number response. -/
def respNoArticle : RawResponse :=
  ⟨423, "423 no article with that number", []⟩

/-- The success response of a BODY command: code 222. -/
def respBodyFollows : RawResponse :=
  ⟨222, "222 3000234 <45223423@example.com> body follows", ["line one", "line two"]⟩

/-- A client with empty caches and a default configuration. -/
def client0 : NntpClient := ⟨⟨none, none⟩, ⟨[]⟩, none⟩

/-- A connect oracle whose AUTHINFO USER read yields code 481 (not the
intermediate 381). -/
def oracleBadUser : Oracle := fun s =>
  match s with
  | .authUser => .ok ⟨481, "481 authentication failed", []⟩
  | _ => .error (.Transport "unused")

/-- C5: parsing the group-selection first line
"211 3000234 3000000 3002322 mozilla.dev.platform" yields the group with
number 3000234, low 3000000, high 3002322 and name mozilla.dev.platform;
and whenever a required field is absent from the first line, parsing fails
with a missing-field error naming the first absent field: with only four
tokens (code and three numbers) it is the name, with three the high field,
with two the low field, with one the number (estimated count) field, and
with an empty line the response code itself. -/
theorem C5_group_line_parsing :
    Group.tryFrom respMoz = .ok ⟨3000234, 3000000, 3002322, "mozilla.dev.platform"⟩
    ∧ (∀ resp c n l hi vn vl vh,
        ResponseCode.fromCode resp.code = .known .GroupSelected →
        splitWs resp.firstLine = [c, n, l, hi] →
        strToNat? n = some vn → vn < 2 ^ 32 →
        strToNat? l = some vl → vl < 2 ^ 32 →
        strToNat? hi = some vh → vh < 2 ^ 32 →
        Group.tryFrom resp = .error (.MissingField "name"))
    ∧ (∀ resp c n l vn vl,
        ResponseCode.fromCode resp.code = .known .GroupSelected →
        splitWs resp.firstLine = [c, n, l] →
        strToNat? n = some vn → vn < 2 ^ 32 →
        strToNat? l = some vl → vl < 2 ^ 32 →
        Group.tryFrom resp = .error (.MissingField "high"))
    ∧ (∀ resp c n vn,
        ResponseCode.fromCode resp.code = .known .GroupSelected →
        splitWs resp.firstLine = [c, n] →
        strToNat? n = some vn → vn < 2 ^ 32 →
        Group.tryFrom resp = .error (.MissingField "low"))
    ∧ (∀ resp c,
        ResponseCode.fromCode resp.code = .known .GroupSelected →
        splitWs resp.firstLine = [c] →
        Group.tryFrom resp = .error (.MissingField "number"))
    ∧ (∀ resp,
        ResponseCode.fromCode resp.code = .known .GroupSelected →
        splitWs resp.firstLine = [] →
        Group.tryFrom resp = .error (.MissingField "response code")) := by
  refine ⟨by decide, ?_, ?_, ?_, ?_, ?_⟩
  · intro resp c n l hi vn vl vh hk hsplit hn hvn hl hvl hhi hvh
    have hvn' : vn < 4294967296 := hvn
    have hvl' : vl < 4294967296 := hvl
    have hvh' : vh < 4294967296 := hvh
    simp [Group.tryFrom, errIfNotKind, hk, hsplit, Group.tryFromTokens,
      parseNatField, parseStrField, hn, hvn', hl, hvl', hhi, hvh']
  · intro resp c n l vn vl hk hsplit hn hvn hl hvl
    have hvn' : vn < 4294967296 := hvn
    have hvl' : vl < 4294967296 := hvl
    simp [Group.tryFrom, errIfNotKind, hk, hsplit, Group.tryFromTokens,
      parseNatField, parseStrField, hn, hvn', hl, hvl']
  · intro resp c n vn hk hsplit hn hvn
    have hvn' : vn < 4294967296 := hvn
    simp [Group.tryFrom, errIfNotKind, hk, hsplit, Group.tryFromTokens,
      parseNatField, parseStrField, hn, hvn']
  · intro resp c hk hsplit
    simp [Group.tryFrom, errIfNotKind, hk, hsplit, Group.tryFromTokens,
      parseNatField, parseStrField]
  · intro resp hk hsplit
    simp [Group.tryFrom, errIfNotKind, hk, hsplit, Group.tryFromTokens]

/-- Witness for C5: a concrete first line with the name field absent is
rejected with a missing-field error naming the name. -/
theorem C5_group_line_parsing_witness :
    Group.tryFrom respNoName = .error (.MissingField "name") :=
  C5_group_line_parsing.2.1 respNoName "211" "3000234" "3000000" "3002322"
    3000234 3000000 3002322 (by decide) (by decide) (by decide) (by decide)
    (by decide) (by decide) (by decide) (by decide)

/-- C10: a group-selection first line with more than four fields after the
numeric code still parses: the first four fields become number, low, high
and name, and every further token is ignored. -/
theorem C10_group_extra_tokens_ignored :
    ∀ resp c n l hi nm rest vn vl vh,
      ResponseCode.fromCode resp.code = .known .GroupSelected →
      splitWs resp.firstLine = c :: n :: l :: hi :: nm :: rest →
      strToNat? n = some vn → vn < 2 ^ 32 →
      strToNat? l = some vl → vl < 2 ^ 32 →
      strToNat? hi = some vh → vh < 2 ^ 32 →
      Group.tryFrom resp = .ok ⟨vn, vl, vh, nm⟩ := by
  intro resp c n l hi nm rest vn vl vh hk hsplit hn hvn hl hvl hhi hvh
  have hvn' : vn < 4294967296 := hvn
  have hvl' : vl < 4294967296 := hvl
  have hvh' : vh < 4294967296 := hvh
  simp [Group.tryFrom, errIfNotKind, hk, hsplit, Group.tryFromTokens,
    parseNatField, parseStrField, hn, hvn', hl, hvl', hhi, hvh']

/-- Witness for C10: a first line with two tokens after the name parses to
the same group as if they were not there. -/
theorem C10_group_extra_tokens_ignored_witness :
    Group.tryFrom respExtraTokens = .ok ⟨3000234, 3000000, 3002322, "mozilla.dev.platform"⟩ :=
  C10_group_extra_tokens_ignored respExtraTokens "211" "3000234" "3000000"
    "3002322" "mozilla.dev.platform" ["extra", "tokens"] 3000234 3000000 3002322
    (by decide) (by decide) (by decide) (by decide) (by decide) (by decide)
    (by decide) (by decide)

/-- C6: compression detection holds exactly of the status lines that end
with the literal bytes of "[COMPRESS=GZIP]" followed by CRLF; the xover
example line with the trailing CRLF is detected and the same line without
it is not. -/
theorem C6_compression_detection :
    (∀ line : List Nat,
        Compression.useDecoder .XFeature line = true ↔
          ∃ pre, line = pre ++ strBytes "[COMPRESS=GZIP]\r\n")
    ∧ Compression.useDecoder .XFeature
        (strBytes "224 xover information follows [COMPRESS=GZIP]\r\n") = true
    ∧ Compression.useDecoder .XFeature
        (strBytes "224 xover information follows [COMPRESS=GZIP]") = false := by
  refine ⟨?_, by decide, by decide⟩
  intro line
  rw [Compression.useDecoder, List.isSuffixOf_iff_suffix]
  constructor
  · rintro ⟨t, ht⟩
    exact ⟨t, ht.symm⟩
  · rintro ⟨pre, rfl⟩
    exact ⟨pre, rfl⟩

/-- C1: the body operation can never yield a typed Body.  At line 199 of
src client.rs the response is gated with fail_unless on the Head kind, so
the actual success response of the BODY command (code 222) is rejected
with a classified failure carrying its code and the response; and any
response that does pass the gate is not of the Body kind, so the Body
conversion rejects it as well. -/
theorem C1_body_success_code_rejected :
    NntpClient.body (.ok respBodyFollows) =
      .error (.Failure (.known .Body) none respBodyFollows)
    ∧ ∀ conn, (NntpClient.body conn).isOk = false := by
  refine ⟨by decide, ?_⟩
  intro conn
  rcases conn with e | resp
  · simp [NntpClient.body, Except.isOk, Except.toBool]
  · simp only [NntpClient.body, RawResponse.failUnless]
    by_cases hk : ResponseCode.fromCode resp.code = .known Kind.Head
    · simp [hk, Body.tryFrom, errIfNotKind, Except.isOk, Except.toBool]
    · simp [hk, Except.isOk, Except.toBool]

/-- C8: the command escape hatch returns the connection result unchanged
and leaves both cached pieces of session state, the group and the
capabilities, exactly as they were. -/
theorem C8_command_frame :
    ∀ (c : NntpClient) (conn : Except Error RawResponse),
      (NntpClient.command c conn).1 = conn
      ∧ (NntpClient.command c conn).2.group = c.group
      ∧ (NntpClient.command c conn).2.capabilities = c.capabilities := by
  intro c conn
  exact ⟨rfl, rfl, rfl⟩

/-- C2: if the AUTHINFO USER read yields a response whose code is not the
intermediate code 381, authentication fails with the descriptive message
"AUTHINFO USER failed" carrying that code and response, and AUTHINFO PASS
is not among the performed steps; conversely PASS is performed only when
USER yielded the code 381 maps to. -/
theorem C2_authinfo_user_gate :
    ∀ oracle : Oracle,
      (∀ userResp, oracle .authUser = .ok userResp →
        ResponseCode.fromCode userResp.code ≠ ResponseCode.fromCode 381 →
        authenticate oracle =
          (.error (.Failure (ResponseCode.fromCode userResp.code)
            (some "AUTHINFO USER failed") userResp), [.authUser]))
      ∧ (Step.authPass ∈ (authenticate oracle).2 →
        ∃ userResp, oracle .authUser = .ok userResp ∧
          ResponseCode.fromCode userResp.code = ResponseCode.fromCode 381) := by
  intro oracle
  constructor
  · intro userResp hu hne
    simp only [authenticate, hu]
    rw [if_pos hne]
  · intro hmem
    rcases hu : oracle .authUser with e | u
    · simp [authenticate, hu] at hmem
    · by_cases heq : ResponseCode.fromCode u.code = ResponseCode.fromCode 381
      · exact ⟨u, rfl, heq⟩
      · simp [authenticate, hu, heq] at hmem

/-- Witness for C2: an AUTHINFO USER response with code 481 makes
authentication fail with the descriptive message without sending PASS. -/
theorem C2_authinfo_user_gate_witness :
    authenticate oracleBadUser =
      (.error (.Failure (ResponseCode.fromCode 481)
        (some "AUTHINFO USER failed") ⟨481, "481 authentication failed", []⟩),
       [.authUser]) :=
  (C2_authinfo_user_gate oracleBadUser).1 ⟨481, "481 authentication failed", []⟩
    rfl (by decide)

/-- C3: select_group dispatches on the response code: on group-selected it
parses the group, caches it as the current group and returns it; on
no-such-newsgroup it fails with a classified failure carrying that
response; on any other code it fails with the lossy first line as the
descriptive message plus the response (and in the failure branches the
client state is untouched). -/
theorem C3_select_group_dispatch :
    ∀ (c : NntpClient) (resp : RawResponse),
      (∀ g, ResponseCode.fromCode resp.code = .known .GroupSelected →
        Group.tryFrom resp = .ok g →
        NntpClient.selectGroup c (.ok resp) = (.ok g, { c with group := some g }))
      ∧ (ResponseCode.fromCode resp.code = .known .NoSuchNewsgroup →
        NntpClient.selectGroup c (.ok resp) = (.error (Error.failure resp), c))
      ∧ (ResponseCode.fromCode resp.code ≠ .known .GroupSelected →
        ResponseCode.fromCode resp.code ≠ .known .NoSuchNewsgroup →
        NntpClient.selectGroup c (.ok resp) =
          (.error (.Failure (ResponseCode.fromCode resp.code)
            (some resp.firstLine) resp), c)) := by
  intro c resp
  refine ⟨?_, ?_, ?_⟩
  · intro g hk hg
    simp [NntpClient.selectGroup, hk, hg]
  · intro hk
    simp [NntpClient.selectGroup, hk]
  · intro h1 h2
    simp only [NntpClient.selectGroup]

/-- Witness for C3: a no-such-newsgroup response (code 411) produces a
classified failure carrying the response and leaves the client alone. -/
theorem C3_select_group_dispatch_witness :
    NntpClient.selectGroup client0 (.ok respNoGroup) =
      (.error (Error.failure respNoGroup), client0) :=
  (C3_select_group_dispatch client0 respNoGroup).2.1 (by decide)

/-- C4: stat maps the three no-article codes (no article with that number,
no article with that message-id, invalid current article number) to a
successful none, the article-exists code to some converted value, and
every other code to a classified failure carrying the response. -/
theorem C4_stat_dispatch :
    ∀ resp : RawResponse,
      ((ResponseCode.fromCode resp.code = .known .NoArticleWithNumber
          ∨ ResponseCode.fromCode resp.code = .known .NoArticleWithMessageId
          ∨ ResponseCode.fromCode resp.code = .known .InvalidCurrentArticleNumber) →
        NntpClient.stat (.ok resp) = .ok none)
      ∧ (∀ s, ResponseCode.fromCode resp.code = .known .ArticleExists →
          Stat.tryFrom resp = .ok s →
          NntpClient.stat (.ok resp) = .ok (some s))
      ∧ (ResponseCode.fromCode resp.code ≠ .known .ArticleExists →
        ResponseCode.fromCode resp.code ≠ .known .NoArticleWithNumber →
        ResponseCode.fromCode resp.code ≠ .known .NoArticleWithMessageId →
        ResponseCode.fromCode resp.code ≠ .known .InvalidCurrentArticleNumber →
        NntpClient.stat (.ok resp) = .error (Error.failure resp)) := by
  intro resp
  refine ⟨?_, ?_, ?_⟩
  · rintro (hk | hk | hk) <;> simp [NntpClient.stat, hk]
  · intro s hk hs
    simp [NntpClient.stat, hk, hs]
  · intro h1 h2 h3 h4
    simp only [NntpClient.stat]

/-- Witness for C4: a code 423 response (no article with that number)
yields a successful none. -/
theorem C4_stat_dispatch_witness :
    NntpClient.stat (.ok respNoArticle) = .ok none :=
  (C4_stat_dispatch respNoArticle).1 (Or.inl (by decide))

/-- C9: whenever select_group or update_capabilities returns an error —
wrong code, failed conversion, or a transported I/O failure — the cached
group and capabilities are left exactly as they were: the cache is written
only after a successful conversion. -/
theorem C9_failed_ops_leave_cache :
    ∀ (c : NntpClient) (conn : Except Error RawResponse) (e : Error),
      ((NntpClient.selectGroup c conn).1 = .error e →
        (NntpClient.selectGroup c conn).2 = c)
      ∧ ((NntpClient.updateCapabilities c conn).1 = .error e →
        (NntpClient.updateCapabilities c conn).2 = c) := by
  intro c conn e
  constructor
  · intro h
    rcases conn with e' | resp
    · rfl
    · by_cases h1 : ResponseCode.fromCode resp.code = .known .GroupSelected
      · rcases hg : Group.tryFrom resp with e2 | g
        · simp [NntpClient.selectGroup, h1, hg]
        · simp [NntpClient.selectGroup, h1, hg] at h
      · by_cases h2 : ResponseCode.fromCode resp.code = .known .NoSuchNewsgroup
        · simp [NntpClient.selectGroup, h2]
        · simp only [NntpClient.selectGroup]
  · intro h
    rcases conn with e' | resp
    · rfl
    · rcases hf : resp.failUnless .Capabilities with e2 | resp2
      · simp [NntpClient.updateCapabilities, hf]
      · rcases hcap : Capabilities.tryFrom resp2 with e3 | caps
        · simp [NntpClient.updateCapabilities, hf, hcap]
        · simp [NntpClient.updateCapabilities, hf, hcap] at h

/-- Witness for C9: the failing code-411 response leaves the empty client
untouched through both operations. -/
theorem C9_failed_ops_leave_cache_witness :
    (NntpClient.selectGroup client0 (.ok respNoGroup)).2 = client0
    ∧ (NntpClient.updateCapabilities client0 (.ok respNoGroup)).2 = client0 :=
  ⟨(C9_failed_ops_leave_cache client0 (.ok respNoGroup) (Error.failure respNoGroup)).1
      (by decide),
   (C9_failed_ops_leave_cache client0 (.ok respNoGroup) (Error.failure respNoGroup)).2
      (by decide)⟩

/-- The authentication exchange behaves like the sequential runner on the
two AUTHINFO steps. -/
theorem authenticate_runSteps (oracle : Oracle) :
    ((authenticate oracle).1.map (fun _ => ()), (authenticate oracle).2) =
      runSteps oracle [.authUser, .authPass] := by
  rcases hu : oracle .authUser with e | u
  · simp [authenticate, runSteps, stepOutcome, hu, Except.map]
  · by_cases heq : ResponseCode.fromCode u.code = ResponseCode.fromCode 381
    · rcases hp : oracle .authPass with e | p
      · simp [authenticate, runSteps, stepOutcome, hu, hp, heq, Except.map]
      · by_cases heq2 : ResponseCode.fromCode p.code = .known .AuthenticationAccepted
        · simp [authenticate, runSteps, stepOutcome, hu, hp, heq, heq2, Except.map]
        · simp [authenticate, runSteps, stepOutcome, hu, hp, heq, heq2, Except.map]
    · simp [authenticate, runSteps, stepOutcome, hu, heq, Except.map]

/-- The capabilities-then-optional-group tail of connect behaves like the
sequential runner on its step list. -/
theorem connectTail_runSteps (cfg : ClientConfig) (oracle : Oracle) :
    ((connectTail cfg oracle).1.map (fun _ => ()), (connectTail cfg oracle).2) =
      runSteps oracle
        (.capabilities :: (if cfg.group.isSome then [.groupSel] else [])) := by
  rcases hc : getCapabilities oracle with e | caps
  · rcases hgr : cfg.group with _ | name <;>
      simp [connectTail, runSteps, stepOutcome, hc, hgr, Except.map]
  · rcases hgr : cfg.group with _ | name
    · simp [connectTail, runSteps, stepOutcome, hc, hgr, Except.map]
    · rcases hs : selectGroupConn oracle with e2 | g <;>
        simp [connectTail, runSteps, stepOutcome, hc, hgr, hs, Except.map]

/-- Running one more step that succeeds prepends it to the run of the
remaining steps. -/
theorem runSteps_cons_ok (oracle : Oracle) (s : Step) (L : List Step)
    (h : stepOutcome oracle s = .ok ()) :
    runSteps oracle (s :: L) =
      ((runSteps oracle L).1, s :: (runSteps oracle L).2) := by
  simp only [runSteps, h]

/-- Running a concatenation after a failing list stops where the failing
list stopped, with the same error and trace. -/
theorem runSteps_append_error (oracle : Oracle) (l1 l2 : List Step) (e : Error)
    (tr : List Step) (h : runSteps oracle l1 = (.error e, tr)) :
    runSteps oracle (l1 ++ l2) = (.error e, tr) := by
  induction l1 generalizing tr with
  | nil => simp [runSteps] at h
  | cons s rest ih =>
    rw [List.cons_append]
    rcases hs : stepOutcome oracle s with e2 | u
    · simp only [runSteps, hs] at h ⊢
      exact h
    · simp only [runSteps, hs] at h ⊢
      rcases hr : runSteps oracle rest with ⟨r, tr2⟩
      rw [hr] at h
      simp only [Prod.mk.injEq] at h
      obtain ⟨h1, h2⟩ := h
      subst h1
      subst h2
      rw [ih tr2 hr]

/-- Running a concatenation after a fully successful list runs the second
list, with the traces concatenated. -/
theorem runSteps_append_ok (oracle : Oracle) (l1 l2 : List Step)
    (tr : List Step) (h : runSteps oracle l1 = (.ok (), tr)) :
    runSteps oracle (l1 ++ l2) =
      ((runSteps oracle l2).1, tr ++ (runSteps oracle l2).2) := by
  induction l1 generalizing tr with
  | nil =>
    simp only [runSteps, Prod.mk.injEq] at h
    obtain ⟨-, h2⟩ := h
    subst h2
    simp
  | cons s rest ih =>
    rw [List.cons_append]
    rcases hs : stepOutcome oracle s with e2 | u
    · simp only [runSteps, hs] at h
      simp only [Prod.mk.injEq] at h
      exact absurd h.1 (by simp)
    · simp only [runSteps, hs] at h ⊢
      rcases hr : runSteps oracle rest with ⟨r, tr2⟩
      rw [hr] at h
      simp only [Prod.mk.injEq] at h
      obtain ⟨h1, h2⟩ := h
      subst h1
      subst h2
      rw [ih tr2 hr]
      simp

/-- C7: connect performs its steps in the fixed order greeting, optional
AUTHINFO USER and PASS (only with credentials configured), unconditional
capabilities fetch, optional group selection (only with a group
configured), and is exactly the first-failure-aborts sequential run of
that step list: the same steps are attempted in the same order, a success
runs them all, and the first failing step ends the attempt with that
step's error and no client. -/
theorem C7_connect_sequencing :
    ∀ (cfg : ClientConfig) (oracle : Oracle),
      ((connect cfg oracle).1.map (fun _ => ()), (connect cfg oracle).2) =
        runSteps oracle (stepsFor cfg) := by
  intro cfg oracle
  rcases hg : oracle .greeting with e | r
  · simp [connect, stepsFor, runSteps, stepOutcome, hg, Except.map]
  · have hstep : stepOutcome oracle .greeting = .ok () := by
      simp [stepOutcome, hg]
    rcases ht : connectTail cfg oracle with ⟨tres, ttr⟩
    have htail := connectTail_runSteps cfg oracle
    rw [ht] at htail
    rcases ha : cfg.authinfo with _ | cred
    · have hsteps : stepsFor cfg =
          .greeting :: (.capabilities ::
            (if cfg.group.isSome then [.groupSel] else [])) := by
        simp [stepsFor, ha]
      rw [hsteps, runSteps_cons_ok oracle .greeting _ hstep, ← htail]
      rcases tres with e2 | ⟨caps, g⟩ <;>
        simp [connect, hg, ha, ht, Except.map]
    · have hsteps : stepsFor cfg =
          .greeting :: ([Step.authUser, Step.authPass] ++
            (.capabilities ::
              (if cfg.group.isSome then [.groupSel] else []))) := by
        simp [stepsFor, ha]
      rw [hsteps, runSteps_cons_ok oracle .greeting _ hstep]
      rcases hA : authenticate oracle with ⟨ares, atr⟩
      have hauth := authenticate_runSteps oracle
      rw [hA] at hauth
      rcases ares with e2 | u
      · rw [runSteps_append_error oracle [Step.authUser, Step.authPass]
          (.capabilities :: (if cfg.group.isSome then [.groupSel] else []))
          e2 atr (by rw [← hauth]; simp [Except.map])]
        simp [connect, hg, ha, hA, Except.map]
      · rw [runSteps_append_ok oracle [Step.authUser, Step.authPass]
          (.capabilities :: (if cfg.group.isSome then [.groupSel] else []))
          atr (by rw [← hauth]; simp [Except.map]), ← htail]
        rcases tres with e2 | ⟨caps, g⟩ <;>
          simp [connect, hg, ha, hA, ht, Except.map]

end Brokaw
